import Mathlib

/-!
Verification of the `ntrip_client` repository (files
`src/ntrip_client/nmea_parser.py` and `src/ntrip_client/ntrip_client.py`).

Shallow embedding conventions:
* Python strings are modelled as `List Char`; `ord` is `Char.toNat`.
* Python integers are `Int` (configuration counters that are only ever
  non-negative are `Nat` where the source never produces negatives).
* A Python function that can raise an uncaught exception returns an
  `Option` (`none` = the exception propagates) or carries an explicit
  `raised : Bool` flag in its result record.
* The socket/transport layer is out of scope for the source; its visible
  outcomes (connect/send/recv failure, or a received response string) are
  supplied as explicit environment inputs.
-/

namespace NtripClient

/-! ## Python helper semantics -/

/-- Python substring prefix test: does `needle` match the first characters
of `hay`?  This is the auxiliary step of the Python `in` operator. -/
def leadMatches : List Char → List Char → Bool
  | [], _ => true
  | _ :: _, [] => false
  | a :: as, b :: bs => a == b && leadMatches as bs

/-- Python `needle in hay` substring containment on strings. -/
def hasSubstr (needle : List Char) : List Char → Bool
  | [] => needle.isEmpty
  | c :: t => leadMatches needle (c :: t) || hasSubstr needle t

/-- The ASCII whitespace characters stripped by Python `int(str, 16)`
around the digits (space, tab, newline, carriage return, vertical tab,
form feed).  The source only ever feeds ASCII NMEA text to `int`. -/
def isPySpace (c : Char) : Bool :=
  c == ' ' || c == '\t' || c == '\n' || c == '\r' || c == '\x0b' || c == '\x0c'

/-- Value of one hexadecimal digit, as accepted by Python `int(_, 16)`. -/
def hexVal (c : Char) : Option Nat :=
  if '0' ≤ c ∧ c ≤ '9' then some (c.toNat - '0'.toNat)
  else if 'a' ≤ c ∧ c ≤ 'f' then some (c.toNat - 'a'.toNat + 10)
  else if 'A' ≤ c ∧ c ≤ 'F' then some (c.toNat - 'A'.toNat + 10)
  else none

/-- Digits after the first one: Python `int(_, 16)` allows a single
underscore between two digits, never doubled, leading or trailing. -/
def hexTail (acc : Nat) : List Char → Option Nat
  | [] => some acc
  | '_' :: rest =>
    match rest with
    | [] => none
    | c :: rest' =>
      match hexVal c with
      | some d => hexTail (acc * 16 + d) rest'
      | none => none
  | c :: rest =>
    match hexVal c with
    | some d => hexTail (acc * 16 + d) rest
    | none => none

/-- A non-empty run of hex digits (with legal underscores). -/
def hexBody : List Char → Option Nat
  | [] => none
  | c :: rest =>
    match hexVal c with
    | some d => hexTail d rest
    | none => none

/-- Digits of Python `int(_, 16)` after the optional sign: an optional
`0x`/`0X` prefix (which may be followed by one underscore) and then the
digit run. -/
def pyIntHexCore (l : List Char) : Option Nat :=
  match l with
  | '0' :: x :: rest =>
    if x == 'x' || x == 'X' then
      match rest with
      | '_' :: rest' => hexBody rest'
      | _ => hexBody rest
    else hexBody l
  | _ => hexBody l

/-- Python `int(s, 16)` on ASCII input: strip surrounding whitespace,
optional sign, then the hex digit run.  `none` models the `ValueError`
the call raises on unparseable input. -/
def pyIntHex (l : List Char) : Option Int :=
  let t := ((l.dropWhile isPySpace).reverse.dropWhile isPySpace).reverse
  match t with
  | '+' :: rest => (pyIntHexCore rest).map Int.ofNat
  | '-' :: rest => (pyIntHexCore rest).map (fun n => -(Int.ofNat n))
  | _ => (pyIntHexCore t).map Int.ofNat

/-- Python `l[-2:]`: the last two characters (or the whole string when it
is shorter). -/
def pyLastTwo (l : List Char) : List Char := l.drop (l.length - 2)

/-- Python `sentence.rsplit(sep, 1)` at the last occurrence of `sep`,
returning (text before the last `sep`, text after it).  Only used under
the guard that `sep` occurs in the list. -/
def rsplitLast (sep : Char) (l : List Char) : List Char × List Char :=
  let r := l.reverse
  (((r.dropWhile (fun c => c != sep)).drop 1).reverse,
   (r.takeWhile (fun c => c != sep)).reverse)

/-! ## `nmea_parser.py` -/

/-- `NMEA_DEFAULT_MAX_LENGTH` from `nmea_parser.py`. -/
def NMEA_DEFAULT_MAX_LENGTH : Nat := 82

/-- `NMEA_DEFAULT_MIN_LENGTH` from `nmea_parser.py`. -/
def NMEA_DEFAULT_MIN_LENGTH : Nat := 3

/-- The data of an `NMEAParser` object: the two length bounds stored on
`self` (the log callables carry no verification content). -/
structure NMEAParser where
  nmea_min_length : Nat
  nmea_max_length : Nat
deriving DecidableEq, Repr

/-- `NMEAParser.__init__` stores the module-level defaults: the signature
accepts only the four log keyword arguments, so the bounds are always the
constants 3 and 82. -/
def NMEAParser.init : NMEAParser :=
  { nmea_min_length := NMEA_DEFAULT_MIN_LENGTH
    nmea_max_length := NMEA_DEFAULT_MAX_LENGTH }

/-- Running XOR of the byte values, as the loop
`for char in data[1:]: calculated_checksum ^= ord(char)` computes it. -/
def xorChecksum (l : List Char) : Nat :=
  l.foldl (fun a c => a ^^^ c.toNat) 0

/-- `NMEAParser.is_valid_sentence`, line by line.  `none` models an
uncaught exception: `IndexError` from `sentence[0]` on an empty string
(reachable only when `nmea_min_length = 0`), or `ValueError` from
`int(expected_checksum_str, 16)` — the source wraps neither in
`try`/`except`. -/
def is_valid_sentence (p : NMEAParser) (sentence : List Char) : Option Bool :=
  if sentence.length > p.nmea_max_length then some false
  else if sentence.length < p.nmea_min_length then some false
  else
    match sentence with
    | [] => none
    | c0 :: _ =>
      if c0 ≠ '$' ∧ c0 ≠ '!' then some false
      else if pyLastTwo sentence ≠ ['\r', '\n'] then some false
      else if !(sentence.contains '*') then some false
      else
        let parts := rsplitLast '*' sentence
        match pyIntHex parts.2 with
        | none => none
        | some expected =>
          if expected ≠ Int.ofNat (xorChecksum (parts.1.drop 1)) then some false
          else some true

/-! ## Construction of the Session's sentence validator

`NTRIPClient.__init__` (ntrip_client.py lines 82–89) constructs its
`NMEAParser` with the keyword arguments below; Python raises `TypeError`
when a keyword argument is not a parameter of the callee's signature. -/

/-- The keyword parameters accepted by `NMEAParser.__init__`
(nmea_parser.py line 9): only the four log callables. -/
def nmeaParserInitKeywords : List String :=
  ["logerr", "logwarn", "loginfo", "logdebug"]

/-- The keyword arguments `NTRIPClient.__init__` passes to `NMEAParser`
(ntrip_client.py lines 82–89). -/
def ntripClientNmeaCallKeywords : List String :=
  ["nmea_min_length", "nmea_max_length", "logerr", "logwarn", "loginfo", "logdebug"]

/-- Python keyword-call admissibility: every keyword passed must be a
parameter of the callee (neither signature involved has `**kwargs`). -/
def kwargsAccepted (accepted passed : List String) : Bool :=
  passed.all (fun k => accepted.contains k)

/-- The `NMEAParser(...)` call inside `NTRIPClient.__init__`, for a
configuration with the given NMEA length bounds.  `none` models the
`TypeError` Python raises when a passed keyword is not in the callee's
signature; on an accepted call the body would store the module defaults. -/
def buildSessionNmeaParser (_nmeaMinLength _nmeaMaxLength : Nat) : Option NMEAParser :=
  if kwargsAccepted nmeaParserInitKeywords ntripClientNmeaCallKeywords then
    some NMEAParser.init
  else
    none

/-! ## `ntrip_client.py`: session state -/

/-- The mutable state `NTRIPClient.__init__` sets up on `self` (socket
handles and the static identity excluded; the two parser objects are kept
outside the record).  Counter maxima live on the record because the
source stores them on `self` too. -/
structure ClientState where
  connected : Bool
  shutdownFlag : Bool
  reconnect_attempt_count : Nat
  reconnect_attempt_max : Nat
  nmea_send_failed_count : Nat
  nmea_send_failed_max : Nat
  read_zero_bytes_count : Nat
  read_zero_bytes_max : Nat
  first_rtcm_received : Bool
  recv_rtcm_last_packet_timestamp : Int
  rtcm_timeout_seconds : Int
deriving DecidableEq, Repr

/-- The state part of `NTRIPClient.__init__`: flags false, counters zero,
send-failure and zero-read maxima hard-coded to 5, timestamp zero. -/
def initialState (reconnectAttemptMax : Nat) (rtcmTimeoutSeconds : Int) : ClientState :=
  { connected := false
    shutdownFlag := false
    reconnect_attempt_count := 0
    reconnect_attempt_max := reconnectAttemptMax
    nmea_send_failed_count := 0
    nmea_send_failed_max := 5
    read_zero_bytes_count := 0
    read_zero_bytes_max := 5
    first_rtcm_received := false
    recv_rtcm_last_packet_timestamp := 0
    rtcm_timeout_seconds := rtcmTimeoutSeconds }

/-- `_SOURCETABLE_RESPONSES` from `ntrip_client.py`. -/
def SOURCETABLE_RESPONSES : List (List Char) := [("SOURCETABLE 200 OK").toList]

/-- `_SUCCESS_RESPONSES` from `ntrip_client.py`. -/
def SUCCESS_RESPONSES : List (List Char) :=
  [("ICY 200 OK").toList, ("HTTP/1.0 200 OK").toList, ("HTTP/1.1 200 OK").toList]

/-- `_UNAUTHORIZED_RESPONSES` from `ntrip_client.py`. -/
def UNAUTHORIZED_RESPONSES : List (List Char) := [("401").toList]

/-- `any(marker in response for marker in markers)`. -/
def hasAnyMarker (markers : List (List Char)) (resp : List Char) : Bool :=
  markers.any (fun m => hasSubstr m resp)

/-- `self._ntrip_version in (None, '')`. -/
def ntripVersionUnset : Option String → Bool
  | none => true
  | some s => s == ""

/-- What the transport does during one `connect()` call: fail at the TCP
connect, fail at sending the request, fail at reading the response, or
deliver a response string. -/
inductive ConnectEvent where
  | connectFail
  | sendFail
  | recvFail
  | response (resp : List Char)

/-- `NTRIPClient.connect`.  The three transport failures return `False`
through the `except` branches without touching `self._connected`; on a
received response, a success marker sets `self._connected = True`, then
the `known_error` `if`/`elif` chain runs (note its last arm is guarded by
`not self._connected`), and the call returns `False` iff a known error
was flagged or no success marker was seen. -/
def connectModel (version : Option String) (ev : ConnectEvent) (st : ClientState) :
    Bool × ClientState :=
  match ev with
  | .connectFail => (false, st)
  | .sendFail => (false, st)
  | .recvFail => (false, st)
  | .response resp =>
    let st1 := if hasAnyMarker SUCCESS_RESPONSES resp then
        { st with connected := true } else st
    let known_error :=
      if hasAnyMarker SOURCETABLE_RESPONSES resp then true
      else if hasAnyMarker UNAUTHORIZED_RESPONSES resp then true
      else if !st1.connected && ntripVersionUnset version then true
      else false
    if known_error || !st1.connected then (false, st1) else (true, st1)

/-- `NTRIPClient.disconnect`: state effect is `self._connected = False`
(the socket shutdown/close calls have no modelled state). -/
def disconnectModel (st : ClientState) : ClientState := { st with connected := false }

/-- `NTRIPClient.shutdown`: `self._shutdown = True` then `disconnect()`. -/
def shutdownModel (st : ClientState) : ClientState :=
  { disconnectModel st with shutdownFlag := true }

theorem ite_pair_snd {c : Prop} [Decidable c] (a b : Bool) (s : ClientState) :
    (if c then (a, s) else (b, s)).2 = s := by split <;> rfl

theorem connectModel_state (version : Option String) (ev : ConnectEvent) (st : ClientState) :
    (connectModel version ev st).2 = st ∨
      (connectModel version ev st).2 = { st with connected := true } := by
  cases ev
  case connectFail => exact Or.inl rfl
  case sendFail => exact Or.inl rfl
  case recvFail => exact Or.inl rfl
  case response resp =>
    simp only [connectModel]
    rw [ite_pair_snd]
    split
    · exact Or.inr rfl
    · exact Or.inl rfl

theorem connectModel_count (version : Option String) (ev : ConnectEvent) (st : ClientState) :
    (connectModel version ev st).2.reconnect_attempt_count = st.reconnect_attempt_count := by
  rcases connectModel_state version ev st with h | h <;> rw [h]

theorem connectModel_max (version : Option String) (ev : ConnectEvent) (st : ClientState) :
    (connectModel version ev st).2.reconnect_attempt_max = st.reconnect_attempt_max := by
  rcases connectModel_state version ev st with h | h <;> rw [h]

theorem connectModel_shutdownFlag (version : Option String) (ev : ConnectEvent) (st : ClientState) :
    (connectModel version ev st).2.shutdownFlag = st.shutdownFlag := by
  rcases connectModel_state version ev st with h | h <;> rw [h]

theorem connectModel_nmeaCount (version : Option String) (ev : ConnectEvent) (st : ClientState) :
    (connectModel version ev st).2.nmea_send_failed_count = st.nmea_send_failed_count := by
  rcases connectModel_state version ev st with h | h <;> rw [h]

theorem connectModel_nmeaMax (version : Option String) (ev : ConnectEvent) (st : ClientState) :
    (connectModel version ev st).2.nmea_send_failed_max = st.nmea_send_failed_max := by
  rcases connectModel_state version ev st with h | h <;> rw [h]

theorem connectModel_readZeroCount (version : Option String) (ev : ConnectEvent) (st : ClientState) :
    (connectModel version ev st).2.read_zero_bytes_count = st.read_zero_bytes_count := by
  rcases connectModel_state version ev st with h | h <;> rw [h]

theorem connectModel_readZeroMax (version : Option String) (ev : ConnectEvent) (st : ClientState) :
    (connectModel version ev st).2.read_zero_bytes_max = st.read_zero_bytes_max := by
  rcases connectModel_state version ev st with h | h <;> rw [h]

/-- Result of one `reconnect()` call: whether the fatal "reconnect
exhausted" exception was raised, how many `connect()` attempts were made,
and the state of the client object afterwards. -/
structure RecOut where
  raised : Bool
  attempts : Nat
  state : ClientState
deriving DecidableEq, Repr

/-- One iteration's increment-disconnect-connect prefix:
`self._reconnect_attempt_count += 1; self.disconnect();
connect_success = self.connect()`. -/
def reconnectIterate (version : Option String) (cenv : Nat → ConnectEvent)
    (attempts : Nat) (st : ClientState) : Bool × ClientState :=
  connectModel version (cenv attempts)
    { st with reconnect_attempt_count := st.reconnect_attempt_count + 1, connected := false }

theorem reconnectIterate_count (version : Option String) (cenv : Nat → ConnectEvent)
    (attempts : Nat) (st : ClientState) :
    (reconnectIterate version cenv attempts st).2.reconnect_attempt_count =
      st.reconnect_attempt_count + 1 := by
  rw [reconnectIterate, connectModel_count]

theorem reconnectIterate_max (version : Option String) (cenv : Nat → ConnectEvent)
    (attempts : Nat) (st : ClientState) :
    (reconnectIterate version cenv attempts st).2.reconnect_attempt_max =
      st.reconnect_attempt_max := by
  rw [reconnectIterate, connectModel_max]

theorem reconnectIterate_shutdownFlag (version : Option String) (cenv : Nat → ConnectEvent)
    (attempts : Nat) (st : ClientState) :
    (reconnectIterate version cenv attempts st).2.shutdownFlag = st.shutdownFlag := by
  rw [reconnectIterate, connectModel_shutdownFlag]

/-- The `while not self._shutdown` loop of `NTRIPClient.reconnect`,
entered with `attempts` connect attempts already made in this call.  Each
iteration increments the attempt counter, disconnects, connects with the
next transport event, and then takes the source's `if`/`elif` chain:
retry while the connect failed and the counter is below the maximum,
raise (resetting the counter) once the counter has reached the maximum,
otherwise stop with the counter reset. -/
def reconnectLoopGo (version : Option String) (cenv : Nat → ConnectEvent)
    (attempts : Nat) (st : ClientState) : RecOut :=
  if st.shutdownFlag then { raised := false, attempts := attempts, state := st }
  else
    if h : (reconnectIterate version cenv attempts st).1 = false ∧
        (reconnectIterate version cenv attempts st).2.reconnect_attempt_count <
          (reconnectIterate version cenv attempts st).2.reconnect_attempt_max then
      reconnectLoopGo version cenv (attempts + 1) (reconnectIterate version cenv attempts st).2
    else if (reconnectIterate version cenv attempts st).2.reconnect_attempt_count ≥
        (reconnectIterate version cenv attempts st).2.reconnect_attempt_max then
      { raised := true, attempts := attempts + 1
        state := { (reconnectIterate version cenv attempts st).2 with
                    reconnect_attempt_count := 0 } }
    else
      { raised := false, attempts := attempts + 1
        state := { (reconnectIterate version cenv attempts st).2 with
                    reconnect_attempt_count := 0 } }
termination_by st.reconnect_attempt_max - st.reconnect_attempt_count
decreasing_by
  rw [reconnectIterate_count, reconnectIterate_max] at h ⊢
  omega

/-- `NTRIPClient.reconnect`: the loop runs only while `self._connected`;
otherwise the call is a logged no-op. -/
def reconnectOp (version : Option String) (cenv : Nat → ConnectEvent)
    (st : ClientState) : RecOut :=
  if st.connected then reconnectLoopGo version cenv 0 st
  else { raised := false, attempts := 0, state := st }

/-! ## `send_nmea` -/

/-- The line-termination fixup at the top of `send_nmea`: a sentence
ending in the four literal characters backslash-r-backslash-n has them
replaced by CR LF; otherwise CR LF is appended unless already present. -/
def normalizeSentence (s : List Char) : List Char :=
  if s.drop (s.length - 4) = ['\\', 'r', '\\', 'n'] then
    s.take (s.length - 4) ++ ['\r', '\n']
  else if pyLastTwo s ≠ ['\r', '\n'] then s ++ ['\r', '\n']
  else s

/-- Result of a `send_nmea` call: whether an exception escaped
(a `ValueError` from the validator or the reconnect-exhausted fatal), and
the state of the client afterwards. -/
structure SendOut where
  raised : Bool
  state : ClientState
deriving DecidableEq, Repr

/-- `NTRIPClient.send_nmea` with explicit recursion fuel: the source
retries by calling itself after a reconnect, and `none` models that the
recursion would need more nesting than the given fuel (the relevant claim
shows fuel 2 always suffices).  `sendOk i` tells whether the `i`-th
`self._server_socket.send` of this call tree succeeds.  Per the source:
not connected is a logged no-op; the normalized sentence is validated
(an unguarded `ValueError` propagates); a send failure increments
`self._nmea_send_failed_count`, and on reaching
`self._nmea_send_failed_max` the client reconnects, zeroes the counter
and resends the same sentence once. -/
def send_nmea_go (p : NMEAParser) (version : Option String) (cenv : Nat → ConnectEvent)
    (sendOk : Nat → Bool) : Nat → Nat → List Char → ClientState → Option SendOut
  | 0, _, _, _ => none
  | fuel + 1, idx, sentence, st =>
    if st.connected = false then some { raised := false, state := st }
    else
      match is_valid_sentence p (normalizeSentence sentence) with
      | none => some { raised := true, state := st }
      | some false => some { raised := false, state := st }
      | some true =>
        if sendOk idx then some { raised := false, state := st }
        else
          if st.nmea_send_failed_count + 1 ≥ st.nmea_send_failed_max then
            if (reconnectOp version cenv
                { st with nmea_send_failed_count := st.nmea_send_failed_count + 1 }).raised then
              some { raised := true
                     state := (reconnectOp version cenv
                       { st with nmea_send_failed_count :=
                          st.nmea_send_failed_count + 1 }).state }
            else
              send_nmea_go p version cenv sendOk fuel (idx + 1) (normalizeSentence sentence)
                { (reconnectOp version cenv
                    { st with nmea_send_failed_count :=
                       st.nmea_send_failed_count + 1 }).state with
                  nmea_send_failed_count := 0 }
          else
            some { raised := false
                   state := { st with nmea_send_failed_count :=
                     st.nmea_send_failed_count + 1 } }

/-! ## `recv_rtcm` -/

/-- The transport-visible inputs to one `recv_rtcm` call: the two
`time.time()` readings (at the watchdog check and at the
timestamp update), the `select.select` availability answer and the
successive `recv` chunk results. -/
structure RecvEnv where
  now : Int
  now2 : Int
  selectReady : Bool
  chunks : List (List Nat)

/-- The `while True` read-accumulation loop: chunks are appended until
one is shorter than `_CHUNK_SIZE = 1024` (an exhausted environment reads
as an empty, hence short, chunk). -/
def readAll : List (List Nat) → List Nat
  | [] => []
  | c :: rest => if c.length < 1024 then c else c ++ readAll rest

/-- Result of a `recv_rtcm` call: whether an exception escaped from a
nested `reconnect()`, the parsed frames returned, and the state of the
client afterwards. -/
structure RecvOut where
  raised : Bool
  frames : List (List Nat)
  state : ClientState
deriving DecidableEq, Repr

/-- The part of `recv_rtcm` after the watchdog: `select` probe, read
loop, the zero-bytes bookkeeping, and the final
`self.rtcm_parser.parse(data) if data else []` (the frame parser itself
is the external `parse` argument; its module is not part of the core
source). -/
def recvBody (parse : List Nat → List (List Nat)) (version : Option String)
    (cenv : Nat → ConnectEvent) (env : RecvEnv) (st : ClientState) : RecvOut :=
  if env.selectReady = false then { raised := false, frames := [], state := st }
  else if readAll env.chunks = [] then
    if st.read_zero_bytes_count + 1 ≥ st.read_zero_bytes_max then
      if (reconnectOp version cenv
          { st with read_zero_bytes_count := st.read_zero_bytes_count + 1 }).raised then
        { raised := true, frames := []
          state := (reconnectOp version cenv
            { st with read_zero_bytes_count := st.read_zero_bytes_count + 1 }).state }
      else
        { raised := false, frames := []
          state := { (reconnectOp version cenv
              { st with read_zero_bytes_count := st.read_zero_bytes_count + 1 }).state with
            read_zero_bytes_count := 0 } }
    else
      { raised := false, frames := []
        state := { st with read_zero_bytes_count := st.read_zero_bytes_count + 1 } }
  else
    { raised := false, frames := parse (readAll env.chunks)
      state := { st with recv_rtcm_last_packet_timestamp := env.now2
                         first_rtcm_received := true } }

/-- `NTRIPClient.recv_rtcm`: empty when not connected; the RTCM-timeout
watchdog (`time.time() - self.rtcm_timeout_seconds >=
self._recv_rtcm_last_packet_timestamp and self._first_rtcm_received`)
reconnects and clears the ever-received flag (unless the reconnect
raises), then the read body runs. -/
def recv_rtcm (parse : List Nat → List (List Nat)) (version : Option String)
    (cenv : Nat → ConnectEvent) (env : RecvEnv) (st : ClientState) : RecvOut :=
  if st.connected = false then { raised := false, frames := [], state := st }
  else if env.now - st.rtcm_timeout_seconds ≥ st.recv_rtcm_last_packet_timestamp ∧
      st.first_rtcm_received = true then
    if (reconnectOp version cenv st).raised then
      { raised := true, frames := [], state := (reconnectOp version cenv st).state }
    else
      recvBody parse version cenv env
        { (reconnectOp version cenv st).state with first_rtcm_received := false }
  else recvBody parse version cenv env st

/-! ## Host-level operations -/

/-- One public call a host can make on the client object, together with
the transport behaviour observed during that call. -/
inductive HostOp where
  | connectCall (ev : ConnectEvent)
  | disconnectCall
  | reconnectCall (cenv : Nat → ConnectEvent)
  | sendNmeaCall (cenv : Nat → ConnectEvent) (sendOk : Nat → Bool) (sentence : List Char)
  | recvRtcmCall (cenv : Nat → ConnectEvent) (env : RecvEnv)
  | shutdownCall

/-- State effect of one public call.  `send_nmea` is run with fuel 2,
which never exhausts on reachable states (`nmea_send_failed_max` is the
constant 5); the `none` fallback keeps the state and is unreachable. -/
def hostStep (p : NMEAParser) (parse : List Nat → List (List Nat))
    (version : Option String) (st : ClientState) : HostOp → ClientState
  | .connectCall ev => (connectModel version ev st).2
  | .disconnectCall => disconnectModel st
  | .reconnectCall cenv => (reconnectOp version cenv st).state
  | .sendNmeaCall cenv sendOk sentence =>
    match send_nmea_go p version cenv sendOk 2 0 sentence st with
    | some out => out.state
    | none => st
  | .recvRtcmCall cenv env => (recv_rtcm parse version cenv env st).state
  | .shutdownCall => shutdownModel st

/-- The client states reachable from a freshly constructed client through
the public calls. -/
inductive Reachable (p : NMEAParser) (parse : List Nat → List (List Nat))
    (version : Option String) : ClientState → Prop
  | init (rmax : Nat) (tmo : Int) : Reachable p parse version (initialState rmax tmo)
  | step (st : ClientState) (op : HostOp) : Reachable p parse version st →
      Reachable p parse version (hostStep p parse version st op)

end NtripClient

namespace NtripClient

/-! ## Claim theorems for the sentence validator -/

/-- C1: the claim states that constructing a Session succeeds and yields a
validator carrying the configured NMEA length bounds.  In the source,
`NTRIPClient.__init__` passes `nmea_min_length`/`nmea_max_length` keyword
arguments that `NMEAParser.__init__` does not accept, so for every
configuration the construction raises `TypeError` instead of succeeding:
the code contradicts its caller's evident intent (a code bug). -/
theorem sessionNmeaParserConstructionRaises (nmeaMinLength nmeaMaxLength : Nat) :
    buildSessionNmeaParser nmeaMinLength nmeaMaxLength = none := rfl

/-- C4: for a sentence that passes every structural check (length within
the configured bounds, leading `$`/`!`, trailing CR LF, a `*` present)
and whose text after the last `*` parses as a hexadecimal integer,
`is_valid_sentence` returns `some true` exactly when the parsed value
equals the XOR of the byte values of the characters strictly between the
sentinel and the last `*`. -/
theorem is_valid_sentence_checksum_iff (p : NMEAParser) (c0 : Char)
    (rest : List Char) (v : Int)
    (hmax : (c0 :: rest).length ≤ p.nmea_max_length)
    (hmin : p.nmea_min_length ≤ (c0 :: rest).length)
    (hc0 : c0 = '$' ∨ c0 = '!')
    (hend : pyLastTwo (c0 :: rest) = ['\r', '\n'])
    (hstar : (c0 :: rest).contains '*' = true)
    (hparse : pyIntHex (rsplitLast '*' (c0 :: rest)).2 = some v) :
    (is_valid_sentence p (c0 :: rest) = some true ↔
      v = Int.ofNat (xorChecksum ((rsplitLast '*' (c0 :: rest)).1.drop 1))) := by
  have hmax' : ¬ (c0 :: rest).length > p.nmea_max_length := by omega
  have hmin' : ¬ (c0 :: rest).length < p.nmea_min_length := by omega
  have hc0' : ¬ (c0 ≠ '$' ∧ c0 ≠ '!') := by
    rcases hc0 with h | h <;> simp [h]
  have hlen : (c0 :: rest).length = rest.length + 1 := rfl
  have hstar' : '*' = c0 ∨ '*' ∈ rest := by simpa using hstar
  have hstar'' : ¬ (¬ '*' = c0 ∧ '*' ∉ rest) := by tauto
  by_cases hv : v = Int.ofNat (xorChecksum ((rsplitLast '*' (c0 :: rest)).1.drop 1))
  · simp [is_valid_sentence, hmax', hmin', hc0', hend, hstar, hparse, hv]
    rw [if_neg (by omega), if_neg (by omega), if_neg hstar'']
  · simp [is_valid_sentence, hmax', hmin', hc0', hend, hstar, hparse]
    rw [if_neg (by omega), if_neg (by omega), if_neg hstar'']
    rw [List.drop_one] at hv
    simp [hv]

/-- Witness for C4 at the concrete sentence `$A*41\r\n` (interior text
`A`, XOR checksum `0x41`). -/
theorem is_valid_sentence_checksum_iff_witness :
    (is_valid_sentence NMEAParser.init ("$A*41\r\n".toList) = some true ↔
      (65 : Int) = Int.ofNat (xorChecksum ((rsplitLast '*' ("$A*41\r\n".toList)).1.drop 1))) :=
  is_valid_sentence_checksum_iff NMEAParser.init '$' ("A*41\r\n".toList) 65
    (by decide) (by decide) (Or.inl rfl) (by decide) (by decide) (by decide)

/-! ## Claim theorems for `connect()` and `reconnect()` -/

/-- A concrete caster response carrying both a success marker and a
sourcetable marker. -/
def bothMarkersResponse : List Char := ("ICY 200 OK\r\nSOURCETABLE 200 OK").toList

/-- C2: the claim states a failed `connect()` always leaves the Session
Disconnected.  In the source, a success marker sets `self._connected =
True` before the error classification, and the failure return paths never
reset it: on a response carrying both a success and a sourcetable marker,
`connect()` returns `False` yet leaves `self._connected = True` (the
code's own comment says such a response "should be considered a failure";
leaving the session marked connected is a code bug). -/
theorem connect_failure_leaves_connected_flag :
    connectModel (some "2.0") (ConnectEvent.response bothMarkersResponse)
        (initialState 10 4) =
      (false, { initialState 10 4 with connected := true }) := by decide

/-- C3 counterexample: a response with a success marker, no sourcetable
and no unauthorized marker, with no protocol version configured — the
claim says `connect()` returns failure (ambiguous-version policy), but
the source guards that check with `not self._connected`, so the call
returns success. -/
theorem connect_success_marker_version_unset_returns_success :
    (connectModel none (ConnectEvent.response (("ICY 200 OK").toList))
        (initialState 10 4)).1 = true := by decide

/-- C3 amended: for every response containing a success marker and no
sourcetable or unauthorized marker, `connect()` returns success whether
or not a protocol version is configured; the ambiguous-version failure
only applies when no success marker is present. -/
theorem connect_success_no_error_markers_succeeds (version : Option String)
    (st : ClientState) (resp : List Char)
    (hs : hasAnyMarker SUCCESS_RESPONSES resp = true)
    (hst : hasAnyMarker SOURCETABLE_RESPONSES resp = false)
    (hun : hasAnyMarker UNAUTHORIZED_RESPONSES resp = false) :
    (connectModel version (ConnectEvent.response resp) st).1 = true := by
  simp [connectModel, hs, hst, hun]

/-- Witness for the amended C3 at a concrete response, with the protocol
version unset and the version set, on the freshly initialised state. -/
theorem connect_success_no_error_markers_succeeds_witness :
    (connectModel none (ConnectEvent.response (("ICY 200 OK").toList))
        (initialState 10 4)).1 = true ∧
    (connectModel (some "2.0") (ConnectEvent.response (("ICY 200 OK").toList))
        (initialState 10 4)).1 = true :=
  ⟨connect_success_no_error_markers_succeeds none _ _ (by decide) (by decide) (by decide),
   connect_success_no_error_markers_succeeds (some "2.0") _ _ (by decide) (by decide) (by decide)⟩

/-- A Connected, not-shut-down session configured with
`reconnect_attempt_max = 1` and otherwise the `__init__` state. -/
def sessionAtMaxOne : ClientState :=
  { initialState 1 4 with connected := true }

/-- C6: the claim states that a `connect()` success at any attempt
number, including the `reconnect_attempt_max`-th, makes `reconnect()`
return normally.  In the source the `elif self._reconnect_attempt_count
>= self.reconnect_attempt_max` arm is checked before the `elif
connect_success` arm, so a success on the max-th attempt still raises the
fatal exhaustion exception (whose message even claims the reconnect
"never succeeded"): with `reconnect_attempt_max = 1` and a successful
first connect, the call raises (a code bug). -/
theorem reconnect_success_at_max_attempt_raises :
    reconnectOp (some "2.0") (fun _ => ConnectEvent.response (("ICY 200 OK").toList))
        sessionAtMaxOne =
      { raised := true, attempts := 1, state := sessionAtMaxOne } := by
  rw [reconnectOp, if_pos (by decide)]
  rw [reconnectLoopGo, if_neg (by decide), dif_neg (by decide), if_pos (by decide)]
  decide

/-- All-failure runs of the reconnect loop: entered not shut down with
the attempt counter strictly below the maximum, and with every transport
event making `connect()` (called on a disconnected session) return
failure, the loop raises after exactly `max - count` further attempts and
exits with the counter reset to zero. -/
theorem reconnectLoopGo_allFail (version : Option String) (cenv : Nat → ConnectEvent)
    (hfail : ∀ i st', st'.connected = false →
      (connectModel version (cenv i) st').1 = false) :
    ∀ n st attempts, st.shutdownFlag = false →
      st.reconnect_attempt_count < st.reconnect_attempt_max →
      st.reconnect_attempt_max - st.reconnect_attempt_count = n →
      (reconnectLoopGo version cenv attempts st).raised = true ∧
      (reconnectLoopGo version cenv attempts st).attempts = attempts + n ∧
      (reconnectLoopGo version cenv attempts st).state.reconnect_attempt_count = 0 := by
  intro n
  induction n with
  | zero => intro st attempts _ h2 h3; omega
  | succ n ih =>
    intro st attempts hsd hlt hn
    have hfst : (reconnectIterate version cenv attempts st).1 = false := by
      rw [reconnectIterate]
      exact hfail attempts _ rfl
    rw [reconnectLoopGo, if_neg (by simp [hsd])]
    by_cases hc : st.reconnect_attempt_count + 1 < st.reconnect_attempt_max
    · rw [dif_pos ⟨hfst, by rw [reconnectIterate_count, reconnectIterate_max]; omega⟩]
      have hsd' : (reconnectIterate version cenv attempts st).2.shutdownFlag = false := by
        rw [reconnectIterate_shutdownFlag]; exact hsd
      have hlt' : (reconnectIterate version cenv attempts st).2.reconnect_attempt_count <
          (reconnectIterate version cenv attempts st).2.reconnect_attempt_max := by
        rw [reconnectIterate_count, reconnectIterate_max]; omega
      have hn' : (reconnectIterate version cenv attempts st).2.reconnect_attempt_max -
          (reconnectIterate version cenv attempts st).2.reconnect_attempt_count = n := by
        rw [reconnectIterate_count, reconnectIterate_max]; omega
      obtain ⟨ha, hb, hcnt⟩ := ih _ (attempts + 1) hsd' hlt' hn'
      refine ⟨ha, ?_, hcnt⟩
      rw [hb]; omega
    · rw [dif_neg (by
        rintro ⟨_, hlt'⟩
        rw [reconnectIterate_count, reconnectIterate_max] at hlt'
        omega)]
      rw [if_pos (by rw [reconnectIterate_count, reconnectIterate_max]; omega)]
      refine ⟨rfl, by simp; omega, rfl⟩

/-- C7: started Connected and not shut down with the attempt counter at
zero and a positive configured maximum, a `reconnect()` in which every
`connect()` attempt fails raises the fatal exhaustion condition (exactly
once — the model's single exit) after exactly `reconnect_attempt_max`
attempts, with the attempt counter back at zero. -/
theorem reconnect_allFail_exhausts (version : Option String) (cenv : Nat → ConnectEvent)
    (st : ClientState)
    (hconn : st.connected = true) (hsd : st.shutdownFlag = false)
    (hcount : st.reconnect_attempt_count = 0) (hmax : 1 ≤ st.reconnect_attempt_max)
    (hfail : ∀ i st', st'.connected = false →
      (connectModel version (cenv i) st').1 = false) :
    (reconnectOp version cenv st).raised = true ∧
    (reconnectOp version cenv st).attempts = st.reconnect_attempt_max ∧
    (reconnectOp version cenv st).state.reconnect_attempt_count = 0 := by
  rw [reconnectOp, if_pos hconn]
  obtain ⟨ha, hb, hc⟩ := reconnectLoopGo_allFail version cenv hfail
    st.reconnect_attempt_max st 0 hsd (by omega) (by omega)
  refine ⟨ha, ?_, hc⟩
  rw [hb]; omega

/-- Witness for C7: `reconnect_attempt_max = 1`, every transport event a
TCP connect failure. -/
theorem reconnect_allFail_exhausts_witness :
    (reconnectOp none (fun _ => ConnectEvent.connectFail) sessionAtMaxOne).raised = true ∧
    (reconnectOp none (fun _ => ConnectEvent.connectFail) sessionAtMaxOne).attempts =
      sessionAtMaxOne.reconnect_attempt_max ∧
    (reconnectOp none (fun _ => ConnectEvent.connectFail)
        sessionAtMaxOne).state.reconnect_attempt_count = 0 :=
  reconnect_allFail_exhausts none (fun _ => ConnectEvent.connectFail) sessionAtMaxOne
    rfl rfl rfl (by decide) (fun _ _ _ => rfl)

/-- C5: the claim states a structurally valid sentence with a non-hex
checksum field yields `false` without an exception.  In the source,
`int(expected_checksum_str, 16)` is not guarded by `try`/`except`, so the
`ValueError` propagates: at the structurally valid input `$AB*ZZ\r\n` the
call raises instead of returning `false` (a code bug). -/
theorem is_valid_sentence_nonhex_checksum_raises :
    is_valid_sentence NMEAParser.init ("$AB*ZZ\r\n".toList) = none := by decide

/-! ## Preservation lemmas for the reconnect loop -/

/-- Fields of the client state that no part of `reconnect()` writes:
everything except `connected` and the reconnect-attempt counter. -/
structure FrameEq (st st' : ClientState) : Prop where
  sd : st'.shutdownFlag = st.shutdownFlag
  rmax : st'.reconnect_attempt_max = st.reconnect_attempt_max
  ncount : st'.nmea_send_failed_count = st.nmea_send_failed_count
  nmax : st'.nmea_send_failed_max = st.nmea_send_failed_max
  zcount : st'.read_zero_bytes_count = st.read_zero_bytes_count
  zmax : st'.read_zero_bytes_max = st.read_zero_bytes_max
  first : st'.first_rtcm_received = st.first_rtcm_received
  ts : st'.recv_rtcm_last_packet_timestamp = st.recv_rtcm_last_packet_timestamp
  tmo : st'.rtcm_timeout_seconds = st.rtcm_timeout_seconds

theorem frameEq_self (st : ClientState) : FrameEq st st :=
  ⟨rfl, rfl, rfl, rfl, rfl, rfl, rfl, rfl, rfl⟩

theorem FrameEq.comp {a b c : ClientState} (h1 : FrameEq a b) (h2 : FrameEq b c) :
    FrameEq a c :=
  ⟨h2.sd.trans h1.sd, h2.rmax.trans h1.rmax, h2.ncount.trans h1.ncount,
   h2.nmax.trans h1.nmax, h2.zcount.trans h1.zcount, h2.zmax.trans h1.zmax,
   h2.first.trans h1.first, h2.ts.trans h1.ts, h2.tmo.trans h1.tmo⟩

theorem reconnectIterate_frame (version : Option String) (cenv : Nat → ConnectEvent)
    (attempts : Nat) (st : ClientState) :
    FrameEq st (reconnectIterate version cenv attempts st).2 := by
  rw [reconnectIterate]
  rcases connectModel_state version (cenv attempts)
      { st with reconnect_attempt_count := st.reconnect_attempt_count + 1,
                connected := false } with h | h <;> rw [h] <;>
    exact ⟨rfl, rfl, rfl, rfl, rfl, rfl, rfl, rfl, rfl⟩

theorem FrameEq.resetAttempts {st st' : ClientState} (h : FrameEq st st') :
    FrameEq st { st' with reconnect_attempt_count := 0 } :=
  ⟨h.sd, h.rmax, h.ncount, h.nmax, h.zcount, h.zmax, h.first, h.ts, h.tmo⟩

theorem reconnectLoopGo_frame (version : Option String) (cenv : Nat → ConnectEvent) :
    ∀ n st attempts, st.reconnect_attempt_max - st.reconnect_attempt_count = n →
      FrameEq st (reconnectLoopGo version cenv attempts st).state := by
  intro n
  induction n with
  | zero =>
    intro st attempts hn
    rw [reconnectLoopGo]
    split
    · exact frameEq_self st
    · rw [dif_neg (by
        rintro ⟨_, hlt⟩
        rw [reconnectIterate_count, reconnectIterate_max] at hlt
        omega)]
      split
      · exact (reconnectIterate_frame version cenv attempts st).resetAttempts
      · exact (reconnectIterate_frame version cenv attempts st).resetAttempts
  | succ n ih =>
    intro st attempts hn
    rw [reconnectLoopGo]
    split
    · exact frameEq_self st
    · split
      · rename_i h
        refine (reconnectIterate_frame version cenv attempts st).comp (ih _ (attempts + 1) ?_)
        have := h.2
        rw [reconnectIterate_count, reconnectIterate_max] at this ⊢
        omega
      · split
        · exact (reconnectIterate_frame version cenv attempts st).resetAttempts
        · exact (reconnectIterate_frame version cenv attempts st).resetAttempts

theorem reconnectOp_frame (version : Option String) (cenv : Nat → ConnectEvent)
    (st : ClientState) : FrameEq st (reconnectOp version cenv st).state := by
  rw [reconnectOp]
  split
  · exact reconnectLoopGo_frame version cenv _ st 0 rfl
  · exact frameEq_self st

theorem reconnectLoopGo_countZero (version : Option String) (cenv : Nat → ConnectEvent) :
    ∀ n st attempts, st.reconnect_attempt_max - st.reconnect_attempt_count = n →
      st.shutdownFlag = false →
      (reconnectLoopGo version cenv attempts st).state.reconnect_attempt_count = 0 := by
  intro n
  induction n with
  | zero =>
    intro st attempts hn hsd
    rw [reconnectLoopGo, if_neg (by simp [hsd])]
    rw [dif_neg (by
      rintro ⟨_, hlt⟩
      rw [reconnectIterate_count, reconnectIterate_max] at hlt
      omega)]
    split
    · rfl
    · rfl
  | succ n ih =>
    intro st attempts hn hsd
    rw [reconnectLoopGo, if_neg (by simp [hsd])]
    split
    · rename_i h
      refine ih _ (attempts + 1) ?_ ?_
      · have := h.2
        rw [reconnectIterate_count, reconnectIterate_max] at this ⊢
        omega
      · rw [reconnectIterate_shutdownFlag]
        exact hsd
    · split
      · rfl
      · rfl

theorem reconnectOp_countZero (version : Option String) (cenv : Nat → ConnectEvent)
    (st : ClientState) (h : st.reconnect_attempt_count = 0) :
    (reconnectOp version cenv st).state.reconnect_attempt_count = 0 := by
  rw [reconnectOp]
  split
  · by_cases hsd : st.shutdownFlag = true
    · rw [reconnectLoopGo, if_pos hsd]
      exact h
    · exact reconnectLoopGo_countZero version cenv _ st 0 rfl (by simpa using hsd)
  · exact h

/-! ## Claim theorems for `send_nmea` and `recv_rtcm` -/

theorem send_nmea_go_one_isSome (p : NMEAParser) (version : Option String)
    (cenv : Nat → ConnectEvent) (sendOk : Nat → Bool) (idx : Nat)
    (sentence : List Char) (st : ClientState)
    (hlt : ¬ st.nmea_send_failed_count + 1 ≥ st.nmea_send_failed_max) :
    send_nmea_go p version cenv sendOk 1 idx sentence st ≠ none := by
  show send_nmea_go p version cenv sendOk (0 + 1) idx sentence st ≠ none
  rw [send_nmea_go]
  by_cases h1 : st.connected = false
  · simp [h1]
  · simp only [eq_false h1, if_false]
    cases hval : is_valid_sentence p (normalizeSentence sentence) with
    | none => simp [hval]
    | some b =>
      cases b with
      | false => simp [hval]
      | true =>
        simp only [hval]
        by_cases hs : sendOk idx = true
        · simp [hs]
        · simp only [eq_false hs, if_false]
          simp only [eq_false hlt, if_false]
          simp

/-- C10: within a single external `send_nmea` call, the reconnect-driven
retry recursion has depth at most 2.  The failure counter is zeroed just
before the recursive resend, so a failure of the resend only raises the
counter to 1, below the threshold `self._nmea_send_failed_max = 5`, and
no second reconnect or resend can fire: fuel 2 always suffices for the
recursion, whatever the transport does. -/
theorem send_nmea_retry_depth_two (p : NMEAParser) (version : Option String)
    (cenv : Nat → ConnectEvent) (sendOk : Nat → Bool) (idx : Nat)
    (sentence : List Char) (st : ClientState)
    (hmax : st.nmea_send_failed_max = 5) :
    send_nmea_go p version cenv sendOk 2 idx sentence st ≠ none := by
  show send_nmea_go p version cenv sendOk (1 + 1) idx sentence st ≠ none
  rw [send_nmea_go]
  by_cases h1 : st.connected = false
  · simp [h1]
  · simp only [eq_false h1, if_false]
    cases hval : is_valid_sentence p (normalizeSentence sentence) with
    | none => simp [hval]
    | some b =>
      cases b with
      | false => simp [hval]
      | true =>
        simp only [hval]
        by_cases hs : sendOk idx = true
        · simp [hs]
        · simp only [eq_false hs, if_false]
          by_cases hge : st.nmea_send_failed_count + 1 ≥ st.nmea_send_failed_max
          · simp only [eq_true hge, if_true]
            by_cases hr : (reconnectOp version cenv
                { st with nmea_send_failed_count :=
                   st.nmea_send_failed_count + 1 }).raised = true
            · simp [hr]
            · simp only [eq_false hr, if_false]
              apply send_nmea_go_one_isSome
              have hfr := (reconnectOp_frame version cenv
                { st with nmea_send_failed_count := st.nmea_send_failed_count + 1 }).nmax
              simp only [] at hfr ⊢
              omega
          · simp [hge]

/-- Witness for C10: a Connected freshly initialised client (so
`nmea_send_failed_max = 5`) with every transport send failing. -/
theorem send_nmea_retry_depth_two_witness :
    sessionAtMaxOne.nmea_send_failed_max = 5 ∧
    send_nmea_go NMEAParser.init none (fun _ => ConnectEvent.connectFail)
      (fun _ => false) 2 0 ("$A*41\r\n".toList) sessionAtMaxOne ≠ none :=
  ⟨rfl, send_nmea_retry_depth_two NMEAParser.init none (fun _ => ConnectEvent.connectFail)
    (fun _ => false) 0 ("$A*41\r\n".toList) sessionAtMaxOne rfl⟩

/-- A Connected session whose consecutive-zero-read counter already
stands at 1, otherwise the `__init__` state. -/
def sessionWithZeroReads : ClientState :=
  { initialState 10 4 with connected := true, read_zero_bytes_count := 1 }

/-- C8 counterexample: a Connected client (watchdog quiet), data
available, a non-empty read of bytes `[1, 2, 3]` — the claim says the
consecutive-empty-read counter is reset to zero on a non-empty read, but
the source's `else` branch only updates the timestamp and the
ever-received flag, so the counter stays at 1. -/
theorem recv_rtcm_nonempty_read_keeps_counter :
    (recv_rtcm (fun d => [d]) none (fun _ => ConnectEvent.connectFail)
        { now := 0, now2 := 7, selectReady := true, chunks := [[1, 2, 3]] }
        sessionWithZeroReads).frames = [[1, 2, 3]] ∧
    (recv_rtcm (fun d => [d]) none (fun _ => ConnectEvent.connectFail)
        { now := 0, now2 := 7, selectReady := true, chunks := [[1, 2, 3]] }
        sessionWithZeroReads).state.read_zero_bytes_count = 1 ∧
    ¬ (recv_rtcm (fun d => [d]) none (fun _ => ConnectEvent.connectFail)
        { now := 0, now2 := 7, selectReady := true, chunks := [[1, 2, 3]] }
        sessionWithZeroReads).state.read_zero_bytes_count = 0 := by decide

/-- C8 amended: on a `recv_rtcm` call in the Connected state with the
RTCM-timeout watchdog not firing and a non-empty transport read, the
last-correction timestamp is set to the current time, the ever-received
flag is set, and the read bytes go to the frame parser whose frames are
returned — but the consecutive-empty-read counter is left unchanged (the
source resets it only in the reconnect branch of the zero-read path),
and in particular all other state fields are untouched. -/
theorem recv_rtcm_nonempty_read_behavior (parse : List Nat → List (List Nat))
    (version : Option String) (cenv : Nat → ConnectEvent) (env : RecvEnv)
    (st : ClientState)
    (hc : st.connected = true)
    (hw : ¬ (env.now - st.rtcm_timeout_seconds ≥ st.recv_rtcm_last_packet_timestamp ∧
      st.first_rtcm_received = true))
    (hsel : env.selectReady = true)
    (hd : readAll env.chunks ≠ []) :
    recv_rtcm parse version cenv env st =
      { raised := false, frames := parse (readAll env.chunks)
        state := { st with recv_rtcm_last_packet_timestamp := env.now2
                           first_rtcm_received := true } } ∧
    (recv_rtcm parse version cenv env st).state.read_zero_bytes_count =
      st.read_zero_bytes_count := by
  have key : recv_rtcm parse version cenv env st =
      { raised := false, frames := parse (readAll env.chunks)
        state := { st with recv_rtcm_last_packet_timestamp := env.now2
                           first_rtcm_received := true } } := by
    rw [recv_rtcm, if_neg (by simp [hc]), if_neg hw]
    rw [recvBody, if_neg (by simp [hsel]), if_neg hd]
  refine ⟨key, ?_⟩
  rw [key]

/-! ## Claim theorems for the reconnect-counter invariant -/

theorem send_nmea_go_countZero (p : NMEAParser) (version : Option String)
    (cenv : Nat → ConnectEvent) (sendOk : Nat → Bool) :
    ∀ fuel idx sentence st, st.reconnect_attempt_count = 0 →
      ∀ out, send_nmea_go p version cenv sendOk fuel idx sentence st = some out →
        out.state.reconnect_attempt_count = 0 := by
  intro fuel
  induction fuel with
  | zero =>
    intro idx sentence st h out hout
    rw [send_nmea_go] at hout
    exact absurd hout (by simp)
  | succ fuel ih =>
    intro idx sentence st h out hout
    rw [send_nmea_go] at hout
    by_cases h1 : st.connected = false
    · rw [if_pos h1] at hout
      cases hout
      exact h
    · rw [if_neg h1] at hout
      cases hval : is_valid_sentence p (normalizeSentence sentence) with
      | none =>
        simp only [hval] at hout
        cases hout
        exact h
      | some b =>
        cases b with
        | false =>
          simp only [hval] at hout
          cases hout
          exact h
        | true =>
          simp only [hval] at hout
          by_cases hs : sendOk idx = true
          · rw [if_pos hs] at hout
            cases hout
            exact h
          · rw [if_neg hs] at hout
            by_cases hge : st.nmea_send_failed_count + 1 ≥ st.nmea_send_failed_max
            · rw [if_pos hge] at hout
              by_cases hr : (reconnectOp version cenv
                  { st with nmea_send_failed_count :=
                     st.nmea_send_failed_count + 1 }).raised = true
              · rw [if_pos hr] at hout
                cases hout
                exact reconnectOp_countZero version cenv _ h
              · rw [if_neg hr] at hout
                exact ih (idx + 1) (normalizeSentence sentence)
                  { (reconnectOp version cenv
                      { st with nmea_send_failed_count :=
                         st.nmea_send_failed_count + 1 }).state with
                    nmea_send_failed_count := 0 }
                  (reconnectOp_countZero version cenv
                    { st with nmea_send_failed_count := st.nmea_send_failed_count + 1 } h)
                  out hout
            · rw [if_neg hge] at hout
              cases hout
              exact h

theorem recvBody_countZero (parse : List Nat → List (List Nat)) (version : Option String)
    (cenv : Nat → ConnectEvent) (env : RecvEnv) (st : ClientState)
    (h : st.reconnect_attempt_count = 0) :
    (recvBody parse version cenv env st).state.reconnect_attempt_count = 0 := by
  rw [recvBody]
  by_cases h1 : env.selectReady = false
  · rw [if_pos h1]; exact h
  · rw [if_neg h1]
    by_cases h2 : readAll env.chunks = []
    · rw [if_pos h2]
      by_cases h3 : st.read_zero_bytes_count + 1 ≥ st.read_zero_bytes_max
      · rw [if_pos h3]
        by_cases h4 : (reconnectOp version cenv
            { st with read_zero_bytes_count := st.read_zero_bytes_count + 1 }).raised = true
        · rw [if_pos h4]
          exact reconnectOp_countZero version cenv _ h
        · rw [if_neg h4]
          exact reconnectOp_countZero version cenv _ h
      · rw [if_neg h3]; exact h
    · rw [if_neg h2]; exact h

theorem recv_rtcm_countZero (parse : List Nat → List (List Nat)) (version : Option String)
    (cenv : Nat → ConnectEvent) (env : RecvEnv) (st : ClientState)
    (h : st.reconnect_attempt_count = 0) :
    (recv_rtcm parse version cenv env st).state.reconnect_attempt_count = 0 := by
  rw [recv_rtcm]
  by_cases h1 : st.connected = false
  · rw [if_pos h1]; exact h
  · rw [if_neg h1]
    by_cases h2 : env.now - st.rtcm_timeout_seconds ≥ st.recv_rtcm_last_packet_timestamp ∧
        st.first_rtcm_received = true
    · rw [if_pos h2]
      by_cases h3 : (reconnectOp version cenv st).raised = true
      · rw [if_pos h3]
        exact reconnectOp_countZero version cenv st h
      · rw [if_neg h3]
        exact recvBody_countZero parse version cenv env _
          (reconnectOp_countZero version cenv st h)
    · rw [if_neg h2]
      exact recvBody_countZero parse version cenv env st h

/-- The reconnect-attempt counter is zero in every reachable state: it is
zeroed by `__init__`, untouched by `connect`, `disconnect` and
`shutdown`, and every exit of the `reconnect()` loop resets it. -/
theorem reachable_count_zero (p : NMEAParser) (parse : List Nat → List (List Nat))
    (version : Option String) (st : ClientState) (h : Reachable p parse version st) :
    st.reconnect_attempt_count = 0 := by
  induction h with
  | init rmax tmo => rfl
  | step st' op _ ih =>
    cases op with
    | connectCall ev =>
      show (connectModel version ev st').2.reconnect_attempt_count = 0
      rw [connectModel_count]; exact ih
    | disconnectCall => exact ih
    | reconnectCall cenv => exact reconnectOp_countZero version cenv st' ih
    | sendNmeaCall cenv sendOk sentence =>
      simp only [hostStep]
      cases hout : send_nmea_go p version cenv sendOk 2 0 sentence st' with
      | none => exact ih
      | some out =>
        exact send_nmea_go_countZero p version cenv sendOk 2 0 sentence st' ih out hout
    | recvRtcmCall cenv env => exact recv_rtcm_countZero parse version cenv env st' ih
    | shutdownCall => exact ih

/-- C9: on every reachable session state, the reconnect-attempt counter
is zero after a successful `connect()` call and after a `shutdown()`
call.  (Neither call touches the counter; the loop in `reconnect()` is
the only writer and every one of its exits leaves the counter at zero, so
the counter is zero in every reachable state.) -/
theorem reconnect_counter_zero_invariant (p : NMEAParser)
    (parse : List Nat → List (List Nat)) (version : Option String) (st : ClientState)
    (h : Reachable p parse version st) (ev : ConnectEvent) :
    ((connectModel version ev st).1 = true →
      (connectModel version ev st).2.reconnect_attempt_count = 0) ∧
    (shutdownModel st).reconnect_attempt_count = 0 := by
  have h0 := reachable_count_zero p parse version st h
  exact ⟨fun _ => by rw [connectModel_count]; exact h0, h0⟩

/-- Witness for C9 at the freshly constructed state and a successful
connect response. -/
theorem reconnect_counter_zero_invariant_witness :
    ((connectModel none (ConnectEvent.response (("ICY 200 OK").toList))
        (initialState 10 4)).1 = true →
      (connectModel none (ConnectEvent.response (("ICY 200 OK").toList))
        (initialState 10 4)).2.reconnect_attempt_count = 0) ∧
    (shutdownModel (initialState 10 4)).reconnect_attempt_count = 0 :=
  reconnect_counter_zero_invariant NMEAParser.init (fun d => [d]) none
    (initialState 10 4) (Reachable.init 10 4)
    (ConnectEvent.response (("ICY 200 OK").toList))

/-- Witness for the amended C8 at the concrete inputs of the
counterexample. -/
theorem recv_rtcm_nonempty_read_behavior_witness :
    recv_rtcm (fun d => [d]) none (fun _ => ConnectEvent.connectFail)
        { now := 0, now2 := 7, selectReady := true, chunks := [[1, 2, 3]] }
        sessionWithZeroReads =
      { raised := false, frames := [[1, 2, 3]]
        state := { sessionWithZeroReads with recv_rtcm_last_packet_timestamp := 7
                                             first_rtcm_received := true } } ∧
    (recv_rtcm (fun d => [d]) none (fun _ => ConnectEvent.connectFail)
        { now := 0, now2 := 7, selectReady := true, chunks := [[1, 2, 3]] }
        sessionWithZeroReads).state.read_zero_bytes_count =
      sessionWithZeroReads.read_zero_bytes_count :=
  recv_rtcm_nonempty_read_behavior (fun d => [d]) none (fun _ => ConnectEvent.connectFail)
    { now := 0, now2 := 7, selectReady := true, chunks := [[1, 2, 3]] }
    sessionWithZeroReads rfl (by decide) rfl (by decide)

end NtripClient
